import Mathlib

/-!
Shallow embedding of `use-next-route` (`src/index.tsx`): route-resolution and
navigation-dispatch logic of the `useRoute` React hook, together with theorems
checking the specification's claims against it.

Modelling conventions:
- JS objects that may be `undefined` become `Option`; JS truthiness tests in the
  source (`prefix ? ... : ...`, `url.query ? ... : ...`, `if (!context)`,
  `currentRoute && ...`) are embedded exactly, including the fact that the empty
  string is falsy and an empty object is truthy.
- React side effects (`Router.prefetch`, `e.preventDefault`, `Router.push`,
  `window.scrollTo`, `document.body.focus`) are embedded as explicit records of
  the calls a single run performs.
- A query object is an insertion-ordered list of key/value pairs, matching JS
  object key order.
-/

namespace UseNextRoute

/-- `type Query = \x7b [key: string]: any \x7d` — an insertion-ordered mapping of
string keys to (string-valued) scalars. -/
abbrev Query := List (String × String)

/-- `export type UrlObject = \x7b pathname: string; query?: Query \x7d`. -/
structure UrlObject where
  pathname : String
  query : Option Query := none
deriving Repr, DecidableEq

/-- The `UrlObject | string` argument type of `useRoute` and `parseRoute`. -/
inductive Url where
  | str (s : String)
  | obj (u : UrlObject)
deriving Repr, DecidableEq

/-- `export type RouteOptions = \x7b prefetch?: boolean; replace?: boolean;
as?: UrlObject \x7d`. -/
structure RouteOptions where
  prefetch : Option Bool := none
  replace : Option Bool := none
  as : Option UrlObject := none
deriving Repr, DecidableEq

/-- `export type RouterContextValue = \x7b currentRoute?: string;
routePrefix?: string \x7d`. The second field is named `routePrefix` in the
source. -/
structure RouterContextValue where
  currentRoute : Option String := none
  routePfx : Option String := none
deriving Repr, DecidableEq

/-- `function parseRoute(url)` (src/index.tsx:79-86): a string is sugar for
an `UrlObject` with that pathname and no query; an object passes through. -/
def parseRoute : Url → UrlObject
  | .str s => { pathname := s }
  | .obj u => u

/-- Return type of `getUrlObjects`. The second field is named `alias` in the
source (a reserved word here). -/
structure UrlObjects where
  route : UrlObject
  aliasUrl : UrlObject
deriving Repr, DecidableEq

/-- `function getUrlObjects(url, options, prefix)` (src/index.tsx:88-108).
`pfx` is the source's `prefix` parameter. The source computes
`alias = parseRoute(options.as || route)` and returns
`\x7b route: \x7bpathname: route.pathname, query: route.query\x7d,
  alias: \x7bpathname: prefix ? prefix + alias.pathname : alias.pathname,
         query: route.query\x7d \x7d`.
JS truthiness of `prefix`: `undefined` and `""` are both falsy, so an empty
prefix takes the unprefixed branch. -/
def getUrlObjects (url : Url) (options : RouteOptions) (pfx : Option String) :
    UrlObjects :=
  let route := parseRoute url
  let al := parseRoute (Url.obj (options.as.getD route))
  { route := { pathname := route.pathname, query := route.query }
    aliasUrl :=
      { pathname :=
          match pfx with
          | some p => if p = "" then al.pathname else p ++ al.pathname
          | none => al.pathname
        query := route.query } }

/-- Modelled from the spec: the hex digit used by percent-escaping in the
query-string encoder (the encoder itself is the external `query-string`
package's `stringify`, not part of this repository). -/
def hexDigit (n : Nat) : Char :=
  if n < 10 then Char.ofNat (48 + n) else Char.ofNat (55 + n)

/-- Modelled from the spec: characters left unescaped by the query encoder
(unreserved URL characters). -/
def isUrlSafeChar (c : Char) : Bool :=
  c.isAlphanum || c = '-' || c = '_' || c = '.' || c = '~'

/-- Modelled from the spec: percent-escape one byte as `%XX`. -/
def percentByte (b : Nat) : String :=
  String.mk ['%', hexDigit (b / 16), hexDigit (b % 16)]

/-- Modelled from the spec: UTF-8 bytes of one code point, for escaping. -/
def utf8Bytes (n : Nat) : List Nat :=
  if n < 128 then [n]
  else if n < 2048 then [192 + n / 64, 128 + n % 64]
  else if n < 65536 then [224 + n / 4096, 128 + (n / 64) % 64, 128 + n % 64]
  else [240 + n / 262144, 128 + (n / 4096) % 64, 128 + (n / 64) % 64,
        128 + n % 64]

/-- Modelled from the spec: escape reserved URL characters of a component. -/
def encodeComponent (s : String) : String :=
  String.join (s.data.map fun c =>
    if isUrlSafeChar c then String.singleton c
    else String.join ((utf8Bytes c.toNat).map percentByte))

/-- Modelled from the spec: `qs.stringify` of the external `query-string`
package (absent from this repository). Per the spec: escapes reserved URL
characters and joins `key=value` pairs with `&` in encounter order. (The real
package's documented default alphabetizes keys; nothing below depends on the
order except where explicitly flagged.) -/
def qsStringify (q : Query) : String :=
  String.intercalate "&"
    (q.map fun kv => encodeComponent kv.1 ++ "=" ++ encodeComponent kv.2)

/-- `function urlObjectToString(url)` (src/index.tsx:46-49):
`const query = url.query ? '?' + qs.stringify(url.query) : ''` then
`pathname + query`. JS truthiness of `url.query`: any object is truthy (even
an empty one), `undefined` is falsy — so the branch tests presence of the
field, not emptiness of the mapping. -/
def urlObjectToString (url : UrlObject) : String :=
  let query :=
    match url.query with
    | some q => "?" ++ qsStringify q
    | none => ""
  url.pathname ++ query

/-- `function usePrefetch(href, shouldPrefetch)` (src/index.tsx:51-58): one run
of the effect, returned as the list of arguments of the `Router.prefetch`
calls it makes (`if (shouldPrefetch) Router.prefetch(href)`). -/
def usePrefetch (href : String) (shouldPrefetch : Bool) : List String :=
  if shouldPrefetch then [href] else []

/-- The message of the error thrown by `useRouterContext` (src/index.tsx:64). -/
def missingContextMessage : String :=
  "Missing RouteContext. Did you forget to use <RouteProvider>?"

/-- `function useRouterContext()` (src/index.tsx:60-68): reads the context
value (`none` models rendering outside any `RouterProvider`, where
`useContext` yields the `null` default); `if (!context) throw ...`. -/
def useRouterContext (octx : Option RouterContextValue) :
    Except String RouterContextValue :=
  match octx with
  | none => Except.error missingContextMessage
  | some c => Except.ok c

/-- The `nativeEvent` of a React synthetic mouse event, as far as the source
reads it (`e.nativeEvent.which`). -/
structure NativeEvent where
  which : Nat
deriving Repr, DecidableEq

/-- A React `MouseEvent`, as far as the source reads it: the three modifier
flags and the optional `nativeEvent` (the source guards with
`e.nativeEvent && ...`, so absence must be representable). -/
structure MouseEvent where
  metaKey : Bool
  ctrlKey : Bool
  shiftKey : Bool
  nativeEvent : Option NativeEvent
deriving Repr, DecidableEq

/-- `function wantsNewTab(e)` (src/index.tsx:70-77):
`e.metaKey || e.ctrlKey || e.shiftKey || (e.nativeEvent && e.nativeEvent.which === 2)`.
JS truthiness of `e.nativeEvent`: an absent native event is falsy, so the
middle-button test runs only when it is present. -/
def wantsNewTab (e : MouseEvent) : Bool :=
  e.metaKey || e.ctrlKey || e.shiftKey ||
    (match e.nativeEvent with
     | some n => n.which == 2
     | none => false)

/-- What one call of the `onClick` handler did: whether it called
`e.preventDefault()` and how many times it called `navigate()`. -/
structure ClickResult where
  preventedDefault : Bool
  navigateCalls : Nat
deriving Repr, DecidableEq

/-- `function onClick(e)` (src/index.tsx:121-125):
`if (wantsNewTab(e)) return; e.preventDefault(); navigate()`. -/
def onClick (e : MouseEvent) : ClickResult :=
  if wantsNewTab e then { preventedDefault := false, navigateCalls := 0 }
  else { preventedDefault := true, navigateCalls := 1 }

/-- Embedding of JS `String.prototype.startsWith`: character-prefix test. -/
def jsStartsWith (s pre : String) : Bool :=
  pre.data.isPrefixOf s.data

/-- The values `useRoute` computes for one render (src/index.tsx:110-141).
`href` and `aliasHref` are the source's locals of those names; the *returned*
handle's `href` field is `aliasHref` (line 137). `prefetchCalls` records the
`Router.prefetch` calls of the `usePrefetch` effect for this render. -/
structure RouteModel where
  route : UrlObject
  aliasUrl : UrlObject
  href : String
  aliasHref : String
  shouldScroll : Bool
  isActive : Bool
  changeType : String
  prefetchCalls : List String
deriving Repr, DecidableEq

/-- `function useRoute(url, options)` body after the context read
(src/index.tsx:110-119), as a pure function of its inputs and the context:
- `href = urlObjectToString(route)`, `aliasHref = urlObjectToString(alias)`;
- `shouldScroll = route.pathname.indexOf('#') < 0` (no `'#'` occurs);
- `isActive = currentRoute && currentRoute.startsWith(route.pathname)`,
  embedded as the truthiness of that JS value (an undefined or empty
  `currentRoute` is falsy and short-circuits);
- `changeType = options.replace ? 'replace' : 'push'`;
- `usePrefetch(href, options.prefetch === true)` — note: `href`, the string of
  the unprefixed `route`, not `aliasHref`. -/
def useRoute (url : Url) (options : RouteOptions) (ctx : RouterContextValue) :
    RouteModel :=
  let uo := getUrlObjects url options ctx.routePfx
  let href := urlObjectToString uo.route
  let aliasHref := urlObjectToString uo.aliasUrl
  let shouldScroll := !(uo.route.pathname.data.contains '#')
  let isActive :=
    match ctx.currentRoute with
    | none => false
    | some c => if c = "" then false else jsStartsWith c uo.route.pathname
  let changeType := if options.replace = some true then "replace" else "push"
  { route := uo.route
    aliasUrl := uo.aliasUrl
    href := href
    aliasHref := aliasHref
    shouldScroll := shouldScroll
    isActive := isActive
    changeType := changeType
    prefetchCalls := usePrefetch href (options.prefetch = some true) }

/-- What one `navigate()` call did (src/index.tsx:127-133): which engine
operation it awaited with which arguments, and whether the post-navigation
side effects (`window.scrollTo(0, 0)`, `document.body.focus()`) fired. One
`NavRun` records exactly one engine call — `navigate` never retries. -/
structure NavRun where
  changeType : String
  pushedRoute : UrlObject
  pushedAlias : UrlObject
  scrolledToTop : Bool
  focusedBody : Bool
deriving Repr, DecidableEq

/-- `async function navigate()` (src/index.tsx:127-133), as a function of the
resolved model and of the `success` boolean the engine resolves:
`const success = await Router[changeType](route, alias);
 if (success && shouldScroll) \x7b window.scrollTo(0, 0); document.body.focus() \x7d`. -/
def navigate (m : RouteModel) (success : Bool) : NavRun :=
  { changeType := m.changeType
    pushedRoute := m.route
    pushedAlias := m.aliasUrl
    scrolledToTop := success && m.shouldScroll
    focusedBody := success && m.shouldScroll }

/-! ## Helper lemmas -/

/-- A nonempty string is never a prefix of the empty string. -/
theorem jsStartsWith_empty (p : String) (h : p ≠ "") :
    jsStartsWith "" p = false := by
  rcases p with ⟨d⟩
  cases d with
  | nil => exact absurd rfl h
  | cons a as => rfl

/-- `wantsNewTab` holds exactly when a modifier key is held or the native
event is present with `which = 2`. -/
theorem wantsNewTab_iff (e : MouseEvent) :
    wantsNewTab e = true ↔
      (e.metaKey = true ∨ e.ctrlKey = true ∨ e.shiftKey = true
        ∨ e.nativeEvent = some { which := 2 }) := by
  rcases e with ⟨m, c, s, ne⟩
  rcases ne with _ | ⟨⟨w⟩⟩
  · simp [wantsNewTab, or_assoc]
  · simp [wantsNewTab, NativeEvent.mk.injEq, or_assoc]

/-- The JS-truthiness embedding of `currentRoute && currentRoute.startsWith(p)`
agrees with "defined and starts-with" whenever `p` is nonempty. -/
theorem isActiveCalc_eq (cr : Option String) (p : String) (hp : p ≠ "") :
    (match cr with
     | none => false
     | some c => if c = "" then false else jsStartsWith c p)
      = (cr.isSome && jsStartsWith (cr.getD "") p) := by
  cases cr with
  | none => rfl
  | some c =>
    by_cases hc : c = ""
    · subst hc
      simp [jsStartsWith_empty p hp]
    · simp [hc]

/-! ## Claim theorems -/

/-- C1: for every input url (string or UrlObject), every RouteOptions, and
every routePrefix, the resolved pair satisfies
`alias.pathname = (routePrefix ?? '') ++ (as's pathname if given, else
route.pathname)` and `alias.query = route.query`; the alias query is never
taken from `options.as`, and `route.pathname` is never prefixed. -/
theorem c1_getUrlObjects_invariant (url : Url) (options : RouteOptions)
    (pfx : Option String) :
    (getUrlObjects url options pfx).aliasUrl.pathname
        = pfx.getD ""
            ++ ((options.as.map UrlObject.pathname).getD (parseRoute url).pathname)
      ∧ (getUrlObjects url options pfx).aliasUrl.query
          = (getUrlObjects url options pfx).route.query
      ∧ (getUrlObjects url options pfx).route.pathname
          = (parseRoute url).pathname
      ∧ (getUrlObjects url options pfx).route.query
          = (parseRoute url).query := by
  refine ⟨?_, rfl, rfl, rfl⟩
  rcases pfx with _ | p
  · cases hA : options.as <;> simp [getUrlObjects, parseRoute, hA]
  · by_cases hp : p = ""
    · subst hp
      cases hA : options.as <;> simp [getUrlObjects, parseRoute, hA]
    · cases hA : options.as <;> simp [getUrlObjects, parseRoute, hA, hp]

/-- C2 counterexample: with `routePrefix = "/p"` and `prefetch = true`, the
effect calls the engine's prefetch with `"/a"` (the string of the unprefixed
`route`), while the handle's `href` field (`aliasHref`) is `"/p/a"` — the
prefetch argument is not the alias string the claim requires. -/
theorem c2_prefetch_uses_route_not_alias :
    (useRoute (Url.str "/a") { prefetch := some true }
        { currentRoute := none, routePfx := some "/p" }).prefetchCalls = ["/a"]
    ∧ (useRoute (Url.str "/a") { prefetch := some true }
        { currentRoute := none, routePfx := some "/p" }).aliasHref = "/p/a"
    ∧ (useRoute (Url.str "/a") { prefetch := some true }
        { currentRoute := none, routePfx := some "/p" }).prefetchCalls
      ≠ [(useRoute (Url.str "/a") { prefetch := some true }
        { currentRoute := none, routePfx := some "/p" }).aliasHref] := by
  refine ⟨rfl, rfl, ?_⟩
  decide

/-- C2 amended: with prefetch enabled the effect calls the engine's prefetch
exactly once with the string form of the canonical (unprefixed) `route`,
`urlObjectToString route` — not the alias string returned as the handle's
`href`; when prefetch is not `true` (the default), no prefetch call is made. -/
theorem c2_usePrefetch_amended (url : Url) (options : RouteOptions)
    (ctx : RouterContextValue) :
    (options.prefetch = some true →
      (useRoute url options ctx).prefetchCalls
        = [urlObjectToString (useRoute url options ctx).route])
    ∧ (options.prefetch ≠ some true →
      (useRoute url options ctx).prefetchCalls = []) := by
  constructor
  · intro h
    simp [useRoute, usePrefetch, h]
  · intro h
    cases hp : options.prefetch with
    | none => simp [useRoute, usePrefetch, hp]
    | some b =>
      cases b with
      | false => simp [useRoute, usePrefetch, hp]
      | true => exact absurd hp h

/-- C2 amended, witness: both branches at concrete inputs. -/
theorem c2_usePrefetch_amended_witness :
    ((some true : Option Bool) = some true
      ∧ (useRoute (Url.str "/s") { prefetch := some true } {}).prefetchCalls
          = [urlObjectToString
              (useRoute (Url.str "/s") { prefetch := some true } {}).route])
    ∧ ((some false : Option Bool) ≠ some true
      ∧ (useRoute (Url.str "/s") { prefetch := some false } {}).prefetchCalls
          = []) :=
  ⟨⟨rfl, (c2_usePrefetch_amended (Url.str "/s") { prefetch := some true } {}).1 rfl⟩,
   ⟨by decide,
    (c2_usePrefetch_amended (Url.str "/s") { prefetch := some false } {}).2
      (by decide)⟩⟩

/-- C3 counterexample: an empty query mapping is a present object and is
truthy in JS, so `urlObjectToString` emits a trailing `?` instead of the bare
pathname the claim requires. -/
theorem c3_emptyQuery_counterexample :
    urlObjectToString { pathname := "/a", query := some [] } = "/a?"
    ∧ urlObjectToString { pathname := "/a", query := some [] } ≠ "/a" := by
  refine ⟨rfl, ?_⟩
  decide

/-- C3 amended: the derived href is the pathname followed by `?` plus the
query-string encoding of the query iff the `query` field is present — even
when the mapping is empty, which yields a trailing `?`; only when `query` is
absent is the href exactly the pathname. -/
theorem c3_urlObjectToString_amended (url : UrlObject) :
    (url.query = none → urlObjectToString url = url.pathname)
    ∧ (url.query ≠ none →
      urlObjectToString url
        = url.pathname ++ "?" ++ qsStringify (url.query.getD [])) := by
  constructor
  · intro h
    simp [urlObjectToString, h]
  · intro h
    cases hq : url.query with
    | none => exact absurd hq h
    | some q => simp [urlObjectToString, hq, String.append_assoc]

/-- C3 amended, witness: both branches at concrete inputs. -/
theorem c3_urlObjectToString_amended_witness :
    (({ pathname := "/x" } : UrlObject).query = none
      ∧ urlObjectToString { pathname := "/x" } = ({ pathname := "/x" } : UrlObject).pathname)
    ∧ (({ pathname := "/project/details", query := some [("id", "42")] } : UrlObject).query ≠ none
      ∧ urlObjectToString { pathname := "/project/details", query := some [("id", "42")] }
        = ({ pathname := "/project/details", query := some [("id", "42")] } : UrlObject).pathname
            ++ "?"
            ++ qsStringify
              (({ pathname := "/project/details", query := some [("id", "42")] } : UrlObject).query.getD [])) :=
  ⟨⟨rfl, (c3_urlObjectToString_amended { pathname := "/x" }).1 rfl⟩,
   ⟨by decide,
    (c3_urlObjectToString_amended
      { pathname := "/project/details", query := some [("id", "42")] }).2 (by decide)⟩⟩

/-- C5: the returned `isActive` equals "`currentRoute` is defined AND
`currentRoute` starts with the canonical `route.pathname`"; in particular it
is `false` when `currentRoute` is `undefined`, and the comparison uses the
unprefixed `route.pathname`. (The hypothesis is the data-model invariant that
a pathname is never empty; the JS value `currentRoute && ...` is embedded by
its truthiness.) -/
theorem c5_isActive_spec (url : Url) (options : RouteOptions)
    (ctx : RouterContextValue)
    (h : (useRoute url options ctx).route.pathname ≠ "") :
    (useRoute url options ctx).isActive
      = (ctx.currentRoute.isSome
          && jsStartsWith (ctx.currentRoute.getD "")
              (useRoute url options ctx).route.pathname) :=
  isActiveCalc_eq ctx.currentRoute (useRoute url options ctx).route.pathname h

/-- C5 witness: a concrete active resolution. -/
theorem c5_isActive_spec_witness :
    (useRoute (Url.str "/a") {} { currentRoute := some "/a/b" }).route.pathname ≠ ""
    ∧ (useRoute (Url.str "/a") {} { currentRoute := some "/a/b" }).isActive
      = (({ currentRoute := some "/a/b" } : RouterContextValue).currentRoute.isSome
          && jsStartsWith
              (({ currentRoute := some "/a/b" } : RouterContextValue).currentRoute.getD "")
              (useRoute (Url.str "/a") {} { currentRoute := some "/a/b" }).route.pathname) :=
  ⟨by decide,
   c5_isActive_spec (Url.str "/a") {} { currentRoute := some "/a/b" } (by decide)⟩

/-- C6: a click with meta-key, ctrl-key or shift-key held, or with the middle
mouse button (native event `which = 2`), returns without `preventDefault` and
without navigating; any other click calls `preventDefault` and invokes
`navigate` exactly once. -/
theorem c6_onClick_spec (e : MouseEvent) :
    ((e.metaKey = true ∨ e.ctrlKey = true ∨ e.shiftKey = true
        ∨ e.nativeEvent = some { which := 2 }) →
      onClick e = { preventedDefault := false, navigateCalls := 0 })
    ∧ (¬ (e.metaKey = true ∨ e.ctrlKey = true ∨ e.shiftKey = true
        ∨ e.nativeEvent = some { which := 2 }) →
      onClick e = { preventedDefault := true, navigateCalls := 1 }) := by
  constructor
  · intro h
    have hw : wantsNewTab e = true := (wantsNewTab_iff e).mpr h
    simp [onClick, hw]
  · intro h
    have hw : wantsNewTab e = false := by
      cases hwe : wantsNewTab e
      · rfl
      · exact absurd ((wantsNewTab_iff e).mp hwe) h
    simp [onClick, hw]

/-- C6 witness: a ctrl-click is not intercepted; a plain click navigates. -/
theorem c6_onClick_spec_witness :
    onClick { metaKey := false, ctrlKey := true, shiftKey := false, nativeEvent := none }
      = { preventedDefault := false, navigateCalls := 0 }
    ∧ onClick { metaKey := false, ctrlKey := false, shiftKey := false, nativeEvent := none }
      = { preventedDefault := true, navigateCalls := 1 } :=
  ⟨(c6_onClick_spec
      { metaKey := false, ctrlKey := true, shiftKey := false, nativeEvent := none }).1
      (Or.inr (Or.inl rfl)),
   (c6_onClick_spec
      { metaKey := false, ctrlKey := false, shiftKey := false, nativeEvent := none }).2
      (by decide)⟩

/-- C7: the scroll-to-top and focus side effects of one `navigate()` call fire
iff the engine reports success and the canonical `route.pathname` contains no
`'#'`; on failure no side effect fires (and the modelled call is a total
function issuing a single engine call, so it neither throws nor retries). -/
theorem c7_navigate_spec (url : Url) (options : RouteOptions)
    (ctx : RouterContextValue) (success : Bool) :
    (((navigate (useRoute url options ctx) success).scrolledToTop = true
        ∧ (navigate (useRoute url options ctx) success).focusedBody = true)
      ↔ (success = true
          ∧ '#' ∉ (useRoute url options ctx).route.pathname.data))
    ∧ (success = false →
      (navigate (useRoute url options ctx) success).scrolledToTop = false
        ∧ (navigate (useRoute url options ctx) success).focusedBody = false) := by
  have hsc : (navigate (useRoute url options ctx) success).scrolledToTop
      = (success
          && !((useRoute url options ctx).route.pathname.data.contains '#')) := rfl
  have hfo : (navigate (useRoute url options ctx) success).focusedBody
      = (success
          && !((useRoute url options ctx).route.pathname.data.contains '#')) := rfl
  constructor
  · rw [hsc, hfo]
    cases success
    · simp
    · simp [List.contains, List.elem_iff]
  · intro hs
    subst hs
    rw [hsc, hfo]
    simp

/-- C7 witness: a failed navigation fires no side effects. -/
theorem c7_navigate_spec_witness :
    (false : Bool) = false
    ∧ ((navigate (useRoute (Url.str "/a") {} {}) false).scrolledToTop = false
      ∧ (navigate (useRoute (Url.str "/a") {} {}) false).focusedBody = false) :=
  ⟨rfl, (c7_navigate_spec (Url.str "/a") {} {} false).2 rfl⟩

/-- C8 counterexample: with `routePrefix = ""` but `options.as` given, the
alias pathname is the `as` pathname, not the canonical `route.pathname` the
claim requires. -/
theorem c8_emptyPrefix_as_counterexample :
    (getUrlObjects (Url.str "/a") { as := some { pathname := "/b" } }
        (some "")).aliasUrl.pathname = "/b"
    ∧ (getUrlObjects (Url.str "/a") { as := some { pathname := "/b" } }
        (some "")).route.pathname = "/a"
    ∧ (getUrlObjects (Url.str "/a") { as := some { pathname := "/b" } }
        (some "")).aliasUrl.pathname
      ≠ (getUrlObjects (Url.str "/a") { as := some { pathname := "/b" } }
        (some "")).route.pathname := by
  refine ⟨rfl, rfl, ?_⟩
  decide

/-- C8 amended: the empty prefix is a true no-op — with `routePrefix = ""`
the alias pathname equals the `as` pathname if `options.as` is given, else the
canonical `route.pathname`, and the whole resolution equals the one with no
prefix at all. -/
theorem c8_emptyPrefix_noop (url : Url) (options : RouteOptions) :
    (getUrlObjects url options (some "")).aliasUrl.pathname
        = (options.as.map UrlObject.pathname).getD (parseRoute url).pathname
    ∧ getUrlObjects url options (some "") = getUrlObjects url options none := by
  constructor
  · cases hA : options.as <;> simp [getUrlObjects, parseRoute, hA]
  · rfl

/-- C9: resolving outside an installed navigation context throws the
missing-context error, and the error is raised iff no context is in scope:
with a context installed, the lookup returns it and never throws. -/
theorem c9_useRouterContext_spec (octx : Option RouterContextValue) :
    (useRouterContext octx = Except.error missingContextMessage ↔ octx = none)
    ∧ ∀ c, useRouterContext (some c) = Except.ok c := by
  constructor
  · cases octx with
    | none => simp [useRouterContext]
    | some c => simp [useRouterContext]
  · intro c
    rfl

/-- C9 witness: the missing-context error at `none`, and a successful lookup. -/
theorem c9_useRouterContext_spec_witness :
    useRouterContext none = Except.error missingContextMessage
    ∧ useRouterContext (some {}) = Except.ok ({} : RouterContextValue) :=
  ⟨(c9_useRouterContext_spec none).1.mpr rfl,
   (c9_useRouterContext_spec none).2 {}⟩

/-- C10: middle-button detection consults `nativeEvent`: a click with no
modifier held and no `nativeEvent` is treated as a normal click
(`preventDefault` and one `navigate` call) even if it was a middle-button
click, and the middle-button branch of `wantsNewTab` is reachable only when
`nativeEvent` is present with `which = 2`. -/
theorem c10_onClick_nativeEvent_spec (e : MouseEvent) :
    (e.nativeEvent = none → e.metaKey = false → e.ctrlKey = false →
      e.shiftKey = false →
      onClick e = { preventedDefault := true, navigateCalls := 1 })
    ∧ (wantsNewTab e = true →
      e.metaKey = true ∨ e.ctrlKey = true ∨ e.shiftKey = true
        ∨ e.nativeEvent = some { which := 2 }) := by
  constructor
  · intro hne hm hc hs
    have hw : wantsNewTab e = false := by
      simp [wantsNewTab, hne, hm, hc, hs]
    simp [onClick, hw]
  · exact fun hw => (wantsNewTab_iff e).mp hw

/-- C10 witness: a modifier-free click without `nativeEvent` navigates, and a
triggered `wantsNewTab` comes from a modifier or `which = 2`. -/
theorem c10_onClick_nativeEvent_spec_witness :
    onClick { metaKey := false, ctrlKey := false, shiftKey := false, nativeEvent := none }
      = { preventedDefault := true, navigateCalls := 1 }
    ∧ ((false : Bool) = true ∨ (true : Bool) = true ∨ (false : Bool) = true
        ∨ (none : Option NativeEvent) = some { which := 2 }) :=
  ⟨(c10_onClick_nativeEvent_spec
      { metaKey := false, ctrlKey := false, shiftKey := false, nativeEvent := none }).1
      rfl rfl rfl rfl,
   (c10_onClick_nativeEvent_spec
      { metaKey := false, ctrlKey := true, shiftKey := false, nativeEvent := none }).2
      rfl⟩

end UseNextRoute
